import Mathlib

/-!
Verification of the myPV AC THOR Home Assistant integration
(custom_components/mypv): a shallow embedding of the polling and
normalization logic of `sensor.py` and `api.py`, followed by theorems
settling the specification claims about it.

Modelling conventions:
* JSON/Python values are modelled by `PyVal`; Python dicts are association
  lists built with Python's insertion semantics (`insertPy`, `dictOf`):
  inserting an existing key updates the value in place, a new key is
  appended.  Python numbers are modelled exactly: `int` as `ℤ`, `float`
  as `ℚ` (the claims only involve values whose float computations are
  exact).
* Python string operations used by the code (`startswith`, `split(" ")`,
  `" " in s`, string `sorted`) are modelled structurally on the
  character list `String.data` so that they evaluate by `decide`/`rfl`.
-/

/-- Python/JSON value as handled by the integration: `None`, `bool`,
`int`, `float`, `str`, `dict` (association list in insertion order) and
`list` (treated as an opaque scalar by the flattener). -/
inductive PyVal where
  | vNone
  | vBool (b : Bool)
  | vInt (n : ℤ)
  | vFloat (q : ℚ)
  | vStr (s : String)
  | vDict (entries : List (String × PyVal))
  | vList (elems : List PyVal)

/-- The `isinstance(value, dict)` test. -/
def PyVal.isDict : PyVal → Bool
  | .vDict _ => true
  | _ => false

/-- Python truthiness (`if not x`): `None`, `False`, `0`, `0.0`, `""`,
`{}` and `[]` are falsy. -/
def pyFalsy : PyVal → Bool
  | .vNone => true
  | .vBool b => !b
  | .vInt n => n = 0
  | .vFloat q => q = 0
  | .vStr s => s = ""
  | .vDict d => d.isEmpty
  | .vList l => l.isEmpty

/-- Python dict assignment `d[k] = v`: if the key is present, the stored
value is updated in place (the dict keeps the original key and its
position); otherwise the pair is appended at the end. -/
def insertPy (l : List (String × PyVal)) (k : String) (v : PyVal) : List (String × PyVal) :=
  match l with
  | [] => [(k, v)]
  | (k', v') :: rest => if k' = k then (k', v) :: rest else (k', v') :: insertPy rest k v

/-- Python's `dict(items)`: build a dict from a list of pairs by repeated
assignment, so later occurrences of a key overwrite earlier ones. -/
def dictOf (l : List (String × PyVal)) : List (String × PyVal) :=
  l.foldl (fun acc p => insertPy acc p.1 p.2) []

/-- Python dict lookup `d.get(k)`: value of the first (and in a real dict
only) entry with key `k`, if any. -/
def lookupPy (l : List (String × PyVal)) (k : String) : Option PyVal :=
  match l with
  | [] => none
  | (k', v) :: rest => if k' = k then some v else lookupPy rest k

/-- Python `s.startswith(pre)` on character lists. -/
def clStartsWith : List Char → List Char → Bool
  | _, [] => true
  | [], _ :: _ => false
  | c :: cs, d :: ds => c = d && clStartsWith cs ds

/-- Python `s.startswith(pre)`. -/
def pyStartsWith (s pre : String) : Bool :=
  clStartsWith s.data pre.data

/-- Lexicographic comparison of character lists by code point, the order
Python uses to compare and sort strings. -/
def clLe : List Char → List Char → Bool
  | [], _ => true
  | _ :: _, [] => false
  | c :: cs, d :: ds => c.val < d.val || (c.val = d.val && clLe cs ds)

/-- Python string `<=` (code-point lexicographic order). -/
def pyStrLe (a b : String) : Bool :=
  clLe a.data b.data

/-- Python `s.split(" ")` on character lists: split at every space;
adjacent separators produce empty pieces, and the result is never empty. -/
def clSplitOnSp : List Char → List (List Char)
  | [] => [[]]
  | c :: cs =>
    let r := clSplitOnSp cs
    if c = ' ' then [] :: r
    else
      match r with
      | [] => [[c]]
      | p :: ps => (c :: p) :: ps

/-- Stable insertion into an ascending list, the building block used to
model Python's `sorted` on strings. -/
def insertSorted (s : String) : List String → List String
  | [] => [s]
  | t :: ts => if pyStrLe s t then s :: t :: ts else t :: insertSorted s ts

/-- Python `sorted(l)` for a list of strings: ascending by code-point
lexicographic order (insertion sort, which is stable). -/
def sortedPy (l : List String) : List String :=
  l.foldr insertSorted []

/-! ## The flattener (`_flatten_dict` in sensor.py) -/

mutual
/-- Embedding of `_flatten_dict(data, parent_key, sep="_")` from
`sensor.py`: a non-dict input is logged and mapped to the empty dict;
a dict is walked entry by entry and the collected items are turned into
a dict again (`dict(items)`). -/
def flatten_dict (data : PyVal) (parent : String) : List (String × PyVal) :=
  match data with
  | .vDict d => dictOf (flattenItems d parent)
  | _ => []

/-- The item loop of `_flatten_dict`: for each entry the new key joins the
parent key and the current key with `_` (the parent prefix is omitted when
the accumulated parent key is empty, Python's falsy test on `parent_key`);
dict values are flattened recursively under the new key (the recursive
call returns a dict whose `.items()` are spliced in), other values are
emitted directly. -/
def flattenItems (l : List (String × PyVal)) (parent : String) : List (String × PyVal) :=
  match l with
  | [] => []
  | (key, value) :: rest =>
    (match value with
     | .vDict d => dictOf (flattenItems d (if parent = "" then key else parent ++ "_" ++ key))
     | v => [((if parent = "" then key else parent ++ "_" ++ key), v)]) ++ flattenItems rest parent
end

/-- Key transformation applied by one level of flattening: prefix the key
with `k` and the separator `_`. -/
def prefixKey (k : String) (e : String × PyVal) : String × PyVal :=
  (k ++ "_" ++ e.1, e.2)

/-- Reference form of the flattening of a dict body in which every
recursion level prefixes with its own key: used to relate `flattenItems`
at different parent keys. -/
def flatAll : List (String × PyVal) → List (String × PyVal)
  | [] => []
  | (k, .vDict d) :: rest => dictOf ((flatAll d).map (prefixKey k)) ++ flatAll rest
  | (k, v) :: rest => (k, v) :: flatAll rest

/-! ## The reading transformer and sensor projection (sensor.py) -/

/-- Python `isinstance(value, int)` together with the integer it denotes:
`bool` is a subclass of `int` in Python, with `True == 1` and
`False == 0`. -/
def pyIntOf : PyVal → Option ℤ
  | .vInt n => some n
  | .vBool b => some (if b then 1 else 0)
  | _ => none

/-- Python `isinstance(value, (int, float))` together with the exact
numeric value (bool again counts as int). -/
def pyNumOf : PyVal → Option ℚ
  | .vInt n => some (n : ℚ)
  | .vFloat q => some q
  | .vBool b => some (if b then 1 else 0)
  | _ => none

/-- Scale factors registered in `SENSOR_TYPES`: the three current sensors
and the five temperature sensors carry `"scale": 0.1`, the grid-frequency
sensor carries `"scale": 0.001`; no other key has a scale. -/
def sensorScale (key : String) : Option ℚ :=
  if key = "curr_L2" ∨ key = "curr_L3" ∨ key = "curr_mains"
     ∨ key = "temp_ps" ∨ key = "temp1" ∨ key = "temp2" ∨ key = "temp3" ∨ key = "temp4" then
    some (1 / 10)
  else if key = "freq" then some (1 / 1000)
  else none

/-- Python's bankers rounding (`round` rounds halves to the even
neighbour). -/
def roundHalfEven (q : ℚ) : ℤ :=
  let f := ⌊q⌋
  if q - f < 1 / 2 then f
  else if (1 : ℚ) / 2 < q - f then f + 1
  else if Even f then f else f + 1

/-- Python `round(x, 2)`. -/
def round2 (q : ℚ) : ℚ :=
  (roundHalfEven (q * 100) : ℚ) / 100

/-- The `status_map` for `screen_mode_flag` in `MyPVSensor.native_value`,
with the `.get(value, f"Unknown ({value})")` fallback. -/
def screenModeLabel (n : ℤ) : String :=
  if n = 0 then "Standby"
  else if n = 1 then "Heating"
  else if n = 2 then "Heating Boost"
  else if n = 3 then "Heating Complete"
  else if n = 4 then "No Connection / Disabled"
  else if n = 5 then "Error"
  else if n = 6 then "Blocking Time Active"
  else "Unknown (" ++ toString n ++ ")"

/-- The `mode_map` for `cur_eth_mode` in `MyPVSensor.native_value`, with
the `.get(value, f"Unknown ({value})")` fallback. -/
def ethModeLabel (n : ℤ) : String :=
  if n = 0 then "LAN"
  else if n = 1 then "WLAN"
  else if n = 2 then "AP"
  else "Unknown (" ++ toString n ++ ")"

/-- The scaling step of `MyPVSensor.native_value`: if the key has a
registered scale and the value is numeric, return `round(value * scale,
2)`; otherwise return the value unchanged.  (The `except` fallback of the
source is unreachable: multiplying and rounding an `int`/`float` by a
registered numeric scale cannot raise.) -/
def scaleStep (key : String) (value : PyVal) : PyVal :=
  match sensorScale key, pyNumOf value with
  | some s, some q => .vFloat (round2 (q * s))
  | _, _ => value

/-- The value transformation tail of `MyPVSensor.native_value`, applied to
a non-`None` raw value: the two enum tables take precedence (each guarded
by `isinstance(value, int)`, here combined into one match on `pyIntOf`
because the key test and the isinstance test commute), then scaling,
otherwise the raw value is returned unchanged. -/
def transformValue (key : String) (value : PyVal) : PyVal :=
  match pyIntOf value with
  | some n =>
    if key = "screen_mode_flag" then .vStr (screenModeLabel n)
    else if key = "cur_eth_mode" then .vStr (ethModeLabel n)
    else scaleStep key value
  | none => scaleStep key value

/-- Embedding of `MyPVSensor.native_value`: `None` coordinator data gives
`None`; otherwise the key is looked up in the flattened snapshot
(`dict.get` returns `None` both for an absent key and for a stored
`None`), and a found value goes through the enum/scaling transformation. -/
def nativeValue (sensorKey : String) (data : Option PyVal) : Option PyVal :=
  match data with
  | none => none
  | some d =>
    match lookupPy (flatten_dict d "") sensorKey with
    | none => none
    | some .vNone => none
    | some v => some (transformValue sensorKey v)

/-- The skip test of `_create_sensors_from_data`: `value is None or
value == ""`. -/
def isNoneOrEmptyStr : PyVal → Bool
  | .vNone => true
  | .vStr s => s = ""
  | _ => false

/-- Embedding of `_create_sensors_from_data`, projected to the list of
sensor keys it creates entities for: falsy coordinator data gives no
entities, otherwise one entity per entry of the flattened snapshot whose
value is neither `None` nor the empty string. -/
def createSensorKeys (data : Option PyVal) : List String :=
  match data with
  | none => []
  | some d =>
    if pyFalsy d then []
    else (flatten_dict d "").filterMap fun p => if isNoneOrEmptyStr p.2 then none else some p.1

/-! ## Forecast projection (sensor.py) -/

/-- The `watt_hours_day` sub-map of the forecast snapshot:
`coordinator.data.get("watt_hours_day", {})`.  (A present non-dict value
would crash the Python code at `sorted(….keys())`; that case is not
exercised by any claim and is mapped to the empty dict here.) -/
def whdOf (entries : List (String × PyVal)) : List (String × PyVal) :=
  match lookupPy entries "watt_hours_day" with
  | some (.vDict w) => w
  | _ => []

/-- The `watt_hours` sub-map of the forecast snapshot:
`coordinator.data.get("watt_hours", {})` (same convention as `whdOf`). -/
def whOf (entries : List (String × PyVal)) : List (String × PyVal) :=
  match lookupPy entries "watt_hours" with
  | some (.vDict w) => w
  | _ => []

/-- The sensor-name dispatch of the loop in `_create_forecast_sensors`
(`if i == 0 … elif i == 1 … elif i == 2 … else continue`). -/
def forecastName : ℕ → Option String
  | 0 => some "Solar Forecast Today"
  | 1 => some "Solar Forecast Tomorrow"
  | 2 => some "Solar Forecast Day After Tomorrow"
  | _ => none

/-- Embedding of `_create_forecast_sensors`, projected to the
`(name, date)` pairs of the `MyPVForecastSensor` entities it creates:
falsy coordinator data or an empty (or absent) `watt_hours_day` gives no
entities; otherwise the date keys are sorted ascending, at most the first
three are kept (`sorted_dates[:3]`), and each is paired with its
enumeration-dependent name. -/
def createForecastSensors (data : Option PyVal) : List (String × String) :=
  match data with
  | none => []
  | some d =>
    if pyFalsy d then []
    else
      match d with
      | .vDict entries =>
        let whd := whdOf entries
        if whd.isEmpty then []
        else
          ((sortedPy (whd.map Prod.fst)).take 3).enum.filterMap fun p =>
            (forecastName p.1).map fun n => (n, p.2)
      | _ => []

/-- Value-level projection of `MyPVForecastSensor.native_value` on the
inputs where it does not raise: `None` coordinator data gives `None`,
otherwise `watt_hours_day.get(date)`.  Inputs on which the Python code
raises `AttributeError` (a non-dict snapshot, or a present non-dict
`watt_hours_day`) are collapsed to `none` here; `forecastNativeValueRun`
below models the failure path faithfully and is the authority for
totality claims. -/
def forecastNativeValue (data : Option PyVal) (date : String) : Option PyVal :=
  match data with
  | none => none
  | some (.vDict entries) => lookupPy (whdOf entries) date
  | some _ => none

/-- Faithful embedding of `MyPVForecastSensor.native_value` including its
failure path, as a computation that either returns a value (`.ok`, with
`.vNone` for a returned Python `None`) or raises (`.error` names the
exception class): `None` coordinator data returns `None`; on a non-dict
snapshot the attribute call `.get("watt_hours_day", {})` raises
`AttributeError`; a present non-dict `watt_hours_day` makes
`watt_hours_day.get(self._date)` raise `AttributeError`; otherwise the
entry stored for the date (or `None` when absent) is returned. -/
def forecastNativeValueRun (data : Option PyVal) (date : String) : Except String PyVal :=
  match data with
  | none => .ok .vNone
  | some (.vDict entries) =>
    match (lookupPy entries "watt_hours_day").getD (.vDict []) with
    | .vDict w => .ok ((lookupPy w date).getD .vNone)
    | _ => .error "AttributeError"
  | some _ => .error "AttributeError"

/-- The time-of-day extraction in `MyPVForecastSensor
.extra_state_attributes`: `timestamp.split(" ")[1] if " " in timestamp
else timestamp` (the index is safe: a string containing a space splits
into at least two parts, so the `[]` default below is never used). -/
def timePart (ts : String) : String :=
  if ts.data.contains ' ' then String.mk ((clSplitOnSp ts.data).getD 1 [])
  else ts

/-- The hourly-filter loop of `MyPVForecastSensor.extra_state_attributes`:
keep the `watt_hours` entries whose timestamp starts with the sensor's
date, keyed by their time-of-day part. -/
def hourlyData (watt_hours : List (String × PyVal)) (date : String) : List (String × PyVal) :=
  watt_hours.foldl
    (fun acc p => if pyStartsWith p.1 date then insertPy acc (timePart p.1) p.2 else acc) []

/-- Embedding of the `hourly_forecast` attribute of
`MyPVForecastSensor.extra_state_attributes`: present only when the
coordinator data is truthy and the filtered hourly dict is non-empty. -/
def hourlyForecastAttr (data : Option PyVal) (date : String) : Option (List (String × PyVal)) :=
  match data with
  | some (.vDict entries) =>
    if pyFalsy (.vDict entries) then none
    else
      let h := hourlyData (whOf entries) date
      if h.isEmpty then none else some h
  | _ => none

/-! ## The HTTP fetcher (api.py) and the update coordinator -/

/-- Outcome of the underlying `session.get` + `raise_for_status` +
`json()` sequence inside `MyPVApiClient._async_get`, classified by the
four failure modes of the spec.  `transport` carries the class name and
`str` of the raised `aiohttp.ClientError` that is not a response-status
error; `badStatus` is the `aiohttp.ClientResponseError` raised by
`raise_for_status` on a non-2xx status; `unexpected` is any other
exception (class name and message). -/
inductive HttpAttempt where
  | ok (body : PyVal)
  | timeout (msg : String)
  | transport (ty : String) (msg : String)
  | badStatus (code : ℕ) (msg : String)
  | unexpected (ty : String) (msg : String)

/-- The error kind taxonomy of the spec (§7). -/
inductive FetchKind where
  | success
  | timeoutKind
  | transportKind
  | statusKind
  | unexpectedKind
deriving DecidableEq

/-- Which spec failure mode an attempt outcome belongs to. -/
def kindOf : HttpAttempt → FetchKind
  | .ok _ => .success
  | .timeout _ => .timeoutKind
  | .transport _ _ => .transportKind
  | .badStatus _ _ => .statusKind
  | .unexpected _ _ => .unexpectedKind

/-- A raised Python exception as seen by the caller: its class name, its
message (`str`), and its `__cause__` chain entry (class name and message)
when the `raise … from …` form was used. -/
structure PyExc where
  ty : String
  msg : String
  cause : Option (String × String)
deriving DecidableEq

/-- Embedding of `MyPVApiClient._async_get`: a timeout is re-raised as
`Exception("Timeout error")` chained to the original;
`aiohttp.ClientError` (which includes the `ClientResponseError` of
`raise_for_status`, so both transport failures and non-2xx statuses land
here) is re-raised as `Exception(f"Error communicating with API:
{exception}")` chained to the original; any other exception is re-raised
unchanged. -/
def asyncGet : HttpAttempt → Except PyExc PyVal
  | .ok body => .ok body
  | .timeout m => .error ⟨"Exception", "Timeout error", some ("TimeoutError", m)⟩
  | .transport ty m =>
      .error ⟨"Exception", "Error communicating with API: " ++ m, some (ty, m)⟩
  | .badStatus _ m =>
      .error ⟨"Exception", "Error communicating with API: " ++ m, some ("ClientResponseError", m)⟩
  | .unexpected ty m => .error ⟨ty, m, none⟩

/-- Embedding of `MyPVDataUpdateCoordinator._async_update_data` for a
known data type: the fetched snapshot on success, and on any exception an
`UpdateFailed(f"Error communicating with API: {exception}")` chained to
the cause. -/
def updateData (r : HttpAttempt) : Except PyExc PyVal :=
  match asyncGet r with
  | .ok d => .ok d
  | .error e =>
      .error ⟨"UpdateFailed", "Error communicating with API: " ++ e.msg, some (e.ty, e.msg)⟩

/-- Modelled from the spec: the host update-coordination layer
(Home Assistant's `DataUpdateCoordinator`, not part of this repository's
sources) runs `_async_update_data` on every refresh tick; on success it
replaces the held snapshot with the returned one, on `UpdateFailed` it
keeps the previously held snapshot and records the refresh error.  The
pair returned here is (snapshot after the tick, surfaced refresh
error). -/
def coordinatorTick (prev : Option PyVal) (r : HttpAttempt) : Option PyVal × Option PyExc :=
  match updateData r with
  | .ok d => (some d, none)
  | .error e => (prev, some e)

/-! ## Dict lemmas -/

theorem insertPy_keys (l : List (String × PyVal)) (k : String) (v : PyVal) :
    (insertPy l k v).map Prod.fst =
      if k ∈ l.map Prod.fst then l.map Prod.fst else l.map Prod.fst ++ [k] := by
  induction l with
  | nil => simp [insertPy]
  | cons e rest ih =>
    obtain ⟨k', v'⟩ := e
    by_cases h : k' = k
    · subst h
      simp [insertPy]
    · simp only [insertPy, if_neg h, List.map_cons, ih]
      by_cases hmem : k ∈ rest.map Prod.fst <;> simp [hmem, h, Ne.symm h]

theorem insertPy_nodupKeys (l : List (String × PyVal)) (k : String) (v : PyVal)
    (h : (l.map Prod.fst).Nodup) : ((insertPy l k v).map Prod.fst).Nodup := by
  rw [insertPy_keys]
  by_cases hmem : k ∈ l.map Prod.fst
  · simpa [hmem]
  · simp [hmem, List.nodup_append, h]

theorem foldl_insertPy_nodupKeys (l acc : List (String × PyVal))
    (h : (acc.map Prod.fst).Nodup) :
    ((List.foldl (fun a p => insertPy a p.1 p.2) acc l).map Prod.fst).Nodup := by
  induction l generalizing acc with
  | nil => simpa [List.foldl]
  | cons e rest ih => exact ih _ (insertPy_nodupKeys _ _ _ h)

theorem dictOf_nodupKeys (l : List (String × PyVal)) : ((dictOf l).map Prod.fst).Nodup :=
  foldl_insertPy_nodupKeys l [] (by simp)

theorem insertPy_of_notMem (l : List (String × PyVal)) (k : String) (v : PyVal)
    (h : k ∉ l.map Prod.fst) : insertPy l k v = l ++ [(k, v)] := by
  induction l with
  | nil => simp [insertPy]
  | cons e rest ih =>
    obtain ⟨k', v'⟩ := e
    simp only [List.map_cons, List.mem_cons] at h
    push_neg at h
    simp [insertPy, Ne.symm h.1, ih h.2]

theorem foldl_insertPy_of_nodup (l acc : List (String × PyVal))
    (h : ((acc ++ l).map Prod.fst).Nodup) :
    List.foldl (fun a p => insertPy a p.1 p.2) acc l = acc ++ l := by
  induction l generalizing acc with
  | nil => simp
  | cons e rest ih =>
    obtain ⟨k, v⟩ := e
    have hk : k ∉ acc.map Prod.fst := by
      intro hmem
      simp only [List.map_append, List.nodup_append] at h
      exact h.2.2 hmem (by simp)
    have hstep : insertPy acc k v = acc ++ [(k, v)] := insertPy_of_notMem acc k v hk
    simp only [List.foldl_cons, hstep]
    have := ih (acc ++ [(k, v)]) (by simpa using h)
    simpa using this

theorem dictOf_of_nodupKeys (l : List (String × PyVal)) (h : (l.map Prod.fst).Nodup) :
    dictOf l = l := by
  simpa using foldl_insertPy_of_nodup l [] (by simpa)

theorem dictOf_idem (l : List (String × PyVal)) : dictOf (dictOf l) = dictOf l :=
  dictOf_of_nodupKeys _ (dictOf_nodupKeys l)

/-! ## String-prefix lemmas for the flattener -/

theorem strAppend_left_cancel {s a b : String} (h : s ++ a = s ++ b) : a = b := by
  have hd := congrArg String.data h
  simp only [String.data_append] at hd
  exact String.ext (List.append_cancel_left hd)

theorem prefix_cancel {k a b : String} (h : k ++ "_" ++ a = k ++ "_" ++ b) : a = b :=
  strAppend_left_cancel (strAppend_left_cancel (by simpa [String.append_assoc] using h))

theorem prefix_ne_empty (p k : String) : p ++ "_" ++ k ≠ "" := by
  intro h
  have hd := congrArg String.data h
  simp [String.data_append] at hd

theorem prefixKey_comp (p k : String) (e : String × PyVal) :
    prefixKey p (prefixKey k e) = prefixKey (p ++ "_" ++ k) e := by
  simp [prefixKey, String.append_assoc]

theorem insertPy_map_pk (k : String) (l : List (String × PyVal)) (a : String) (v : PyVal) :
    insertPy (l.map (prefixKey k)) (k ++ "_" ++ a) v = (insertPy l a v).map (prefixKey k) := by
  induction l with
  | nil => simp [insertPy, prefixKey]
  | cons e rest ih =>
    obtain ⟨b, w⟩ := e
    by_cases hba : b = a
    · subst hba
      simp [insertPy, prefixKey]
    · have hba' : k ++ "_" ++ b ≠ k ++ "_" ++ a := fun h => hba (prefix_cancel h)
      simp [insertPy, prefixKey, hba, hba', ih]

theorem foldl_insertPy_map_pk (k : String) (l acc : List (String × PyVal)) :
    List.foldl (fun a p => insertPy a p.1 p.2) (acc.map (prefixKey k)) (l.map (prefixKey k)) =
      (List.foldl (fun a p => insertPy a p.1 p.2) acc l).map (prefixKey k) := by
  induction l generalizing acc with
  | nil => simp
  | cons e rest ih =>
    obtain ⟨a, w⟩ := e
    simp only [List.map_cons, List.foldl_cons]
    rw [show (prefixKey k (a, w)).1 = k ++ "_" ++ a from rfl,
        show (prefixKey k (a, w)).2 = w from rfl,
        insertPy_map_pk k acc a w]
    exact ih (insertPy acc a w)

theorem dictOf_map_pk (k : String) (l : List (String × PyVal)) :
    dictOf (l.map (prefixKey k)) = (dictOf l).map (prefixKey k) := by
  simpa [dictOf] using foldl_insertPy_map_pk k l []

/-! ## Flattening at a non-empty parent key -/

theorem flattenItems_prefixed (m : List (String × PyVal)) (p : String) (hp : p ≠ "") :
    flattenItems m p = (flatAll m).map (prefixKey p) := by
  induction m, p using flattenItems.induct with
  | case1 parent => simp [flattenItems, flatAll]
  | case2 parent key value rest ih1 ih2 =>
    have hnk : (if parent = "" then key else parent ++ "_" ++ key) = parent ++ "_" ++ key := by
      simp [hp]
    cases value with
    | vDict d =>
      have ih1' : flattenItems d (parent ++ "_" ++ key) =
          (flatAll d).map (prefixKey (parent ++ "_" ++ key)) := by
        have h' : (if h : parent = "" then key else parent ++ "_" ++ key) ≠ "" →
            flattenItems d (if h : parent = "" then key else parent ++ "_" ++ key) =
              (flatAll d).map (prefixKey (if h : parent = "" then key else parent ++ "_" ++ key)) :=
          ih1
        rw [dif_neg hp] at h'
        exact h' (prefix_ne_empty parent key)
      have hmapmap : (flatAll d).map (prefixKey (parent ++ "_" ++ key)) =
          ((flatAll d).map (prefixKey key)).map (prefixKey parent) := by
        rw [List.map_map]
        exact (List.map_congr_left fun e _ => (prefixKey_comp parent key e).symm)
      calc flattenItems ((key, .vDict d) :: rest) parent
          = dictOf (flattenItems d (if parent = "" then key else parent ++ "_" ++ key)) ++
              flattenItems rest parent := by
            simp [flattenItems]
        _ = dictOf (((flatAll d).map (prefixKey key)).map (prefixKey parent)) ++
              (flatAll rest).map (prefixKey parent) := by
            rw [hnk, ih1', hmapmap, ih2 hp]
        _ = (dictOf ((flatAll d).map (prefixKey key))).map (prefixKey parent) ++
              (flatAll rest).map (prefixKey parent) := by
            rw [dictOf_map_pk]
        _ = (flatAll ((key, .vDict d) :: rest)).map (prefixKey parent) := by
            simp [flatAll]
    | vNone => simp [flattenItems, flatAll, hnk, ih2 hp, prefixKey]
    | vBool b => simp [flattenItems, flatAll, hnk, ih2 hp, prefixKey]
    | vInt n => simp [flattenItems, flatAll, hnk, ih2 hp, prefixKey]
    | vFloat q => simp [flattenItems, flatAll, hnk, ih2 hp, prefixKey]
    | vStr s => simp [flattenItems, flatAll, hnk, ih2 hp, prefixKey]
    | vList l => simp [flattenItems, flatAll, hnk, ih2 hp, prefixKey]

theorem flattenItems_root (m : List (String × PyVal))
    (h : ∀ e ∈ m, e.1 = "" → e.2.isDict = false) :
    flattenItems m "" = flatAll m := by
  induction m with
  | nil => simp [flattenItems, flatAll]
  | cons e rest ih =>
    obtain ⟨key, value⟩ := e
    have hrest : flattenItems rest "" = flatAll rest :=
      ih fun e he => h e (List.mem_cons_of_mem _ he)
    cases value with
    | vDict d =>
      have hk : key ≠ "" := by
        intro h0
        have := h (key, .vDict d) (List.mem_cons_self _ _) h0
        simp [PyVal.isDict] at this
      simp [flattenItems, flatAll, hrest, flattenItems_prefixed d key hk]
    | vNone => simp [flattenItems, flatAll, hrest]
    | vBool b => simp [flattenItems, flatAll, hrest]
    | vInt n => simp [flattenItems, flatAll, hrest]
    | vFloat q => simp [flattenItems, flatAll, hrest]
    | vStr s => simp [flattenItems, flatAll, hrest]
    | vList l => simp [flattenItems, flatAll, hrest]

/-! ## Claim C1 -/

/-- C1 counterexample: the claim quantifies over every key `k`, but for
the empty key the code's falsy test on the accumulated parent key omits
the prefix, so `flatten({"": {"b": 1}})` is `{"b": 1}` and not the
predicted `{"_b": 1}`. -/
theorem c1_flatten_prefixing_counterexample :
    flatten_dict (.vDict [("", .vDict [("b", .vInt 1)])]) "" = [("b", .vInt 1)] ∧
    (flatten_dict (.vDict [("b", .vInt 1)]) "").map (prefixKey "") = [("_b", .vInt 1)] ∧
    ("b" : String) ≠ "_b" :=
  ⟨by simp [flatten_dict, flattenItems, dictOf, insertPy],
   by simp [flatten_dict, flattenItems, dictOf, insertPy, prefixKey],
   by decide⟩

/-- C1 (amended): for every non-empty key `k` and every nested mapping `m`
none of whose top-level entries pairs the empty key with a mapping,
flattening `{k: m}` equals flattening `m` and prefixing every resulting
key with `k` and the separator. -/
theorem c1_flatten_prefixing (k : String) (m : List (String × PyVal))
    (hk : k ≠ "")
    (hm : ∀ e ∈ m, e.1 = "" → e.2.isDict = false) :
    flatten_dict (.vDict [(k, .vDict m)]) "" =
      (flatten_dict (.vDict m) "").map (prefixKey k) := by
  have hA : flattenItems m k = (flatAll m).map (prefixKey k) := flattenItems_prefixed m k hk
  have hB : flattenItems m "" = flatAll m := flattenItems_root m hm
  calc flatten_dict (.vDict [(k, .vDict m)]) ""
      = dictOf (dictOf (flattenItems m k)) := by simp [flatten_dict, flattenItems]
    _ = dictOf (flattenItems m k) := dictOf_idem _
    _ = dictOf ((flatAll m).map (prefixKey k)) := by rw [hA]
    _ = (dictOf (flatAll m)).map (prefixKey k) := dictOf_map_pk k _
    _ = (dictOf (flattenItems m "")).map (prefixKey k) := by rw [hB]
    _ = (flatten_dict (.vDict m) "").map (prefixKey k) := by simp [flatten_dict]

/-- C1 witness: the amended theorem applied to the claim's own example
`flatten({"a": {"b": 1, "c": {"d": 2}}}) = {"a_b": 1, "a_c_d": 2}`. -/
theorem c1_flatten_prefixing_witness :
    ("a" : String) ≠ "" ∧
    (∀ e ∈ ([("b", PyVal.vInt 1), ("c", PyVal.vDict [("d", PyVal.vInt 2)])] :
        List (String × PyVal)), e.1 = "" → e.2.isDict = false) ∧
    flatten_dict (.vDict [("a", .vDict [("b", .vInt 1), ("c", .vDict [("d", .vInt 2)])])]) "" =
      (flatten_dict (.vDict [("b", .vInt 1), ("c", .vDict [("d", .vInt 2)])]) "").map
        (prefixKey "a") ∧
    flatten_dict (.vDict [("a", .vDict [("b", .vInt 1), ("c", .vDict [("d", .vInt 2)])])]) "" =
      [("a_b", .vInt 1), ("a_c_d", .vInt 2)] :=
  ⟨by decide, by decide,
   c1_flatten_prefixing "a" _ (by decide) (by decide),
   by simp [flatten_dict, flattenItems, dictOf, insertPy]⟩

/-! ## Claim C2 -/

/-- C2: flattening a non-mapping top-level input returns the empty
mapping (and, being a total function, never raises). -/
theorem c2_flatten_non_mapping (v : PyVal) (h : v.isDict = false) :
    flatten_dict v "" = [] := by
  cases v <;> simp_all [flatten_dict, PyVal.isDict]

/-- C2 witness: a string and `None` at the top level both flatten to the
empty mapping. -/
theorem c2_flatten_non_mapping_witness :
    (PyVal.vStr "oops").isDict = false ∧ flatten_dict (.vStr "oops") "" = [] ∧
    PyVal.vNone.isDict = false ∧ flatten_dict .vNone "" = [] :=
  ⟨rfl, c2_flatten_non_mapping (.vStr "oops") rfl, rfl, c2_flatten_non_mapping .vNone rfl⟩

/-! ## Claim C8 -/

theorem filterMap_skip_eq (l : List (String × PyVal)) :
    (l.filterMap fun p => if isNoneOrEmptyStr p.2 then none else some p.1) =
      (l.filter fun p => !isNoneOrEmptyStr p.2).map Prod.fst := by
  induction l with
  | nil => rfl
  | cons e rest ih => by_cases h : isNoneOrEmptyStr e.2 <;> simp [h, ih]

/-- C8: the data/soc sensor projector emits no sensor for a flattened key
whose value is `None` or the empty string, and exactly one sensor for
every other key of the flattened snapshot (the emitted key list has no
duplicates, and a key is emitted precisely when it carries a
non-`None`, non-empty value). -/
theorem c8_null_empty_excluded (d : List (String × PyVal)) :
    (createSensorKeys (some (.vDict d))).Nodup ∧
    ∀ key, key ∈ createSensorKeys (some (.vDict d)) ↔
      ∃ v, (key, v) ∈ flatten_dict (.vDict d) "" ∧ isNoneOrEmptyStr v = false := by
  by_cases hd : d.isEmpty
  · have hd' : d = [] := by simpa using hd
    subst hd'
    refine ⟨by simp [createSensorKeys, pyFalsy], fun key => ?_⟩
    simp [createSensorKeys, pyFalsy, flatten_dict, flattenItems, dictOf]
  · have hfalsy : pyFalsy (.vDict d) = false := by simp [pyFalsy, hd]
    have hkeys : ((flatten_dict (.vDict d) "").map Prod.fst).Nodup := by
      simp only [flatten_dict]
      exact dictOf_nodupKeys _
    have hck : createSensorKeys (some (.vDict d)) =
        (flatten_dict (.vDict d) "").filterMap
          fun p => if isNoneOrEmptyStr p.2 then none else some p.1 := by
      simp [createSensorKeys, hfalsy]
    constructor
    · rw [hck, filterMap_skip_eq]
      exact ((List.filter_sublist _).map Prod.fst).nodup hkeys
    · intro key
      rw [hck]
      simp only [List.mem_filterMap]
      constructor
      · rintro ⟨⟨a, b⟩, hmem, hf⟩
        by_cases hp : isNoneOrEmptyStr b
        · simp [hp] at hf
        · simp [hp] at hf
          subst hf
          exact ⟨b, hmem, by simpa using hp⟩
      · rintro ⟨v, hmem, hv⟩
        exact ⟨(key, v), hmem, by simp [hv]⟩

/-- C8 witness: a snapshot containing a `None` value, an empty-string
value and one real reading projects exactly the sensor for the real
reading. -/
theorem c8_null_empty_excluded_witness :
    (createSensorKeys (some (.vDict [("x", .vNone), ("y", .vStr ""), ("z", .vInt 5)]))).Nodup ∧
    createSensorKeys (some (.vDict [("x", .vNone), ("y", .vStr ""), ("z", .vInt 5)])) = ["z"] :=
  ⟨(c8_null_empty_excluded [("x", .vNone), ("y", .vStr ""), ("z", .vInt 5)]).1,
   by simp [createSensorKeys, pyFalsy, flatten_dict, flattenItems, dictOf, insertPy,
     isNoneOrEmptyStr]⟩

/-! ## Claim C6 -/

/-- C6 counterexample: the device-mode key is `screen_mode_flag` (display
name "Device Status"); transforming raw value 1 for it yields "Heating",
not "WLAN" — "WLAN" is the value-1 label of the network-mode key
`cur_eth_mode`. -/
theorem c6_enum_counterexample :
    nativeValue "screen_mode_flag" (some (.vDict [("screen_mode_flag", .vInt 1)])) =
      some (.vStr "Heating") ∧
    ("Heating" : String) ≠ "WLAN" :=
  ⟨by simp [nativeValue, flatten_dict, flattenItems, dictOf, insertPy, lookupPy,
      transformValue, pyIntOf, screenModeLabel],
   by decide⟩

/-- C6 (amended): for the network-mode key `cur_eth_mode`, integer raw
value 1 yields "WLAN" and the unregistered value 99 yields
"Unknown (99)"; for the device-mode key `screen_mode_flag`, value 1
yields "Heating" and the unregistered value 99 likewise yields
"Unknown (99)". -/
theorem c6_enum_labels :
    nativeValue "cur_eth_mode" (some (.vDict [("cur_eth_mode", .vInt 1)])) =
      some (.vStr "WLAN") ∧
    nativeValue "cur_eth_mode" (some (.vDict [("cur_eth_mode", .vInt 99)])) =
      some (.vStr "Unknown (99)") ∧
    nativeValue "screen_mode_flag" (some (.vDict [("screen_mode_flag", .vInt 1)])) =
      some (.vStr "Heating") ∧
    nativeValue "screen_mode_flag" (some (.vDict [("screen_mode_flag", .vInt 99)])) =
      some (.vStr "Unknown (99)") := by
  refine ⟨?_, ?_, ?_, ?_⟩ <;>
    simp [nativeValue, flatten_dict, flattenItems, dictOf, insertPy, lookupPy,
      transformValue, pyIntOf, screenModeLabel, ethModeLabel] <;> rfl

/-! ## Claim C7 -/

/-- C7: for every key with a registered scale factor and every numeric
raw value, the transformer returns the raw value multiplied by the scale
and rounded to 2 decimal places.  (The transformer is a total function,
so it never raises; the source's `except` fallback to the unscaled value
is unreachable for numeric inputs.) -/
theorem c7_scaling (key : String) (s q : ℚ) (v : PyVal)
    (hs : sensorScale key = some s) (hv : pyNumOf v = some q) :
    transformValue key v = .vFloat (round2 (q * s)) := by
  have h1 : key ≠ "screen_mode_flag" := by rintro rfl; simp [sensorScale] at hs
  have h2 : key ≠ "cur_eth_mode" := by rintro rfl; simp [sensorScale] at hs
  unfold transformValue scaleStep
  cases hint : pyIntOf v with
  | some n => simp [h1, h2, hs, hv]
  | none => simp [hs, hv]

/-- C7 witness: the claim's examples — scale 0.1 with raw 237 yields
23.7, raw 2371 yields 237.1 (shown on the temperature key `temp1`). -/
theorem c7_scaling_witness :
    sensorScale "temp1" = some (1 / 10) ∧
    pyNumOf (.vInt 237) = some 237 ∧
    transformValue "temp1" (.vInt 237) = .vFloat (round2 (237 * (1 / 10))) ∧
    round2 ((237 : ℚ) * (1 / 10)) = 237 / 10 ∧
    transformValue "temp1" (.vInt 2371) = .vFloat (round2 (2371 * (1 / 10))) ∧
    round2 ((2371 : ℚ) * (1 / 10)) = 2371 / 10 :=
  ⟨by simp [sensorScale], by norm_num [pyNumOf],
   c7_scaling "temp1" (1 / 10) 237 (.vInt 237) (by simp [sensorScale]) (by norm_num [pyNumOf]),
   by unfold round2 roundHalfEven; norm_num,
   c7_scaling "temp1" (1 / 10) 2371 (.vInt 2371) (by simp [sensorScale]) (by norm_num [pyNumOf]),
   by unfold round2 roundHalfEven; norm_num⟩

/-! ## Claim C10 -/

/-- C10 counterexample: with the forecast snapshot `{"watt_hours_day":
"x"}` the sensor's date key is absent from the (flattened) snapshot and
the snapshot is not `None`, yet `MyPVForecastSensor.native_value` raises
`AttributeError` (the string has no `.get`) instead of returning `None`
— reading the sensor is not total there. -/
theorem c10_totality_counterexample :
    lookupPy (flatten_dict (.vDict [("watt_hours_day", .vStr "x")]) "") "2026-01-14" = none ∧
    forecastNativeValueRun (some (.vDict [("watt_hours_day", .vStr "x")])) "2026-01-14" =
      .error "AttributeError" ∧
    ∀ v : PyVal,
      forecastNativeValueRun (some (.vDict [("watt_hours_day", .vStr "x")])) "2026-01-14" ≠
        .ok v := by
  refine ⟨?_, rfl, fun v h => ?_⟩
  · simp [flatten_dict, flattenItems, dictOf, insertPy, lookupPy]
  · rw [show forecastNativeValueRun (some (.vDict [("watt_hours_day", .vStr "x")]))
        "2026-01-14" = .error "AttributeError" from rfl] at h
    exact Except.noConfusion h

/-- C10 (amended): reading a plain sensor is total for every snapshot —
`None` coordinator data and a key absent from the flattened snapshot
both give `None`; reading a forecast sensor returns `None` rather than
raising when the coordinator data is `None`, or is a mapping whose
`watt_hours_day` entry is absent, or is a mapping whose `watt_hours_day`
entry is a mapping without the sensor's date — only a non-mapping
snapshot or a present non-mapping `watt_hours_day` makes the forecast
read raise. -/
theorem c10_native_value_total (key date : String) :
    nativeValue key none = none ∧
    forecastNativeValueRun none date = .ok .vNone ∧
    (∀ v : PyVal, lookupPy (flatten_dict v "") key = none → nativeValue key (some v) = none) ∧
    (∀ entries : List (String × PyVal), lookupPy entries "watt_hours_day" = none →
      forecastNativeValueRun (some (.vDict entries)) date = .ok .vNone) ∧
    (∀ entries whd : List (String × PyVal),
      lookupPy entries "watt_hours_day" = some (.vDict whd) → lookupPy whd date = none →
      forecastNativeValueRun (some (.vDict entries)) date = .ok .vNone) := by
  refine ⟨rfl, rfl, fun v h => ?_, fun entries h => ?_, fun entries whd h1 h2 => ?_⟩
  · simp [nativeValue, h]
  · simp [forecastNativeValueRun, lookupPy, h]
  · simp [forecastNativeValueRun, h1, h2]

/-- C10 witness: a key missing from a plain snapshot, a forecast snapshot
without `watt_hours_day`, and a date missing from a well-formed
`watt_hours_day` all read as `None` without raising. -/
theorem c10_native_value_total_witness :
    lookupPy (flatten_dict (.vDict [("a", .vInt 1)]) "") "missing" = none ∧
    nativeValue "missing" (some (.vDict [("a", .vInt 1)])) = none ∧
    lookupPy [("other", PyVal.vInt 1)] "watt_hours_day" = none ∧
    forecastNativeValueRun (some (.vDict [("other", .vInt 1)])) "2026-02-01" = .ok .vNone ∧
    lookupPy [("watt_hours_day", PyVal.vDict [("2026-01-14", PyVal.vInt 200)])]
      "watt_hours_day" = some (.vDict [("2026-01-14", .vInt 200)]) ∧
    lookupPy [("2026-01-14", PyVal.vInt 200)] "2026-02-01" = none ∧
    forecastNativeValueRun
      (some (.vDict [("watt_hours_day", .vDict [("2026-01-14", .vInt 200)])])) "2026-02-01" =
      .ok .vNone := by
  have h1 : lookupPy (flatten_dict (.vDict [("a", .vInt 1)]) "") "missing" = none := by
    simp [flatten_dict, flattenItems, dictOf, insertPy, lookupPy]
  exact ⟨h1, (c10_native_value_total "missing" "2026-02-01").2.2.1 _ h1,
    rfl, (c10_native_value_total "missing" "2026-02-01").2.2.2.1 [("other", .vInt 1)] rfl,
    rfl, rfl,
    (c10_native_value_total "missing" "2026-02-01").2.2.2.2
      [("watt_hours_day", .vDict [("2026-01-14", .vInt 200)])]
      [("2026-01-14", .vInt 200)] rfl rfl⟩

/-! ## Claim C3 -/

theorem forecastNames_zip (dates : List String) :
    ((dates.take 3).enum.filterMap fun p => (forecastName p.1).map fun n => (n, p.2)) =
      ["Solar Forecast Today", "Solar Forecast Tomorrow",
        "Solar Forecast Day After Tomorrow"].zip (dates.take 3) := by
  match dates with
  | [] => rfl
  | [a] => rfl
  | [a, b] => rfl
  | [a, b, c] => rfl
  | a :: b :: c :: d :: rest => rfl

/-- C3: for a forecast snapshot with a non-empty `watt_hours_day`
sub-map, the projector pairs the labels Today / Tomorrow / Day After
Tomorrow, in that order, with the ascending-sorted date keys (at most the
first three), and each projected day's native value is the
`watt_hours_day` entry for its date. -/
theorem c3_forecast_days (entries whd : List (String × PyVal))
    (hwd : lookupPy entries "watt_hours_day" = some (.vDict whd))
    (hne : whd ≠ []) :
    createForecastSensors (some (.vDict entries)) =
      ["Solar Forecast Today", "Solar Forecast Tomorrow",
        "Solar Forecast Day After Tomorrow"].zip ((sortedPy (whd.map Prod.fst)).take 3) ∧
    ∀ nd ∈ createForecastSensors (some (.vDict entries)),
      forecastNativeValue (some (.vDict entries)) nd.2 = lookupPy whd nd.2 := by
  have hent : entries ≠ [] := by rintro rfl; simp [lookupPy] at hwd
  have hfalsy : pyFalsy (.vDict entries) = false := by
    cases entries with
    | nil => exact absurd rfl hent
    | cons e l => rfl
  have hwhd : whdOf entries = whd := by simp [whdOf, hwd]
  have hwne : whd.isEmpty = false := by
    cases whd with
    | nil => exact absurd rfl hne
    | cons e l => rfl
  constructor
  · simp [createForecastSensors, hfalsy, hwhd, hwne, forecastNames_zip]
  · intro nd hnd
    simp [forecastNativeValue, hwhd]

/-- C3 witness: the claim's example `{"2026-01-15": 100, "2026-01-14":
200, "2026-01-16": 50}` projects 2026-01-14 (Today, 200), 2026-01-15
(Tomorrow, 100), 2026-01-16 (Day After Tomorrow, 50). -/
theorem c3_forecast_days_witness :
    lookupPy [("watt_hours_day", PyVal.vDict [("2026-01-15", .vInt 100),
        ("2026-01-14", .vInt 200), ("2026-01-16", .vInt 50)])] "watt_hours_day" =
      some (.vDict [("2026-01-15", .vInt 100), ("2026-01-14", .vInt 200),
        ("2026-01-16", .vInt 50)]) ∧
    ([("2026-01-15", PyVal.vInt 100), ("2026-01-14", PyVal.vInt 200),
        ("2026-01-16", PyVal.vInt 50)] : List (String × PyVal)) ≠ [] ∧
    createForecastSensors (some (.vDict [("watt_hours_day", .vDict [("2026-01-15", .vInt 100),
        ("2026-01-14", .vInt 200), ("2026-01-16", .vInt 50)])])) =
      [("Solar Forecast Today", "2026-01-14"), ("Solar Forecast Tomorrow", "2026-01-15"),
        ("Solar Forecast Day After Tomorrow", "2026-01-16")] ∧
    forecastNativeValue (some (.vDict [("watt_hours_day", .vDict [("2026-01-15", .vInt 100),
        ("2026-01-14", .vInt 200), ("2026-01-16", .vInt 50)])])) "2026-01-14" =
      some (.vInt 200) ∧
    forecastNativeValue (some (.vDict [("watt_hours_day", .vDict [("2026-01-15", .vInt 100),
        ("2026-01-14", .vInt 200), ("2026-01-16", .vInt 50)])])) "2026-01-15" =
      some (.vInt 100) ∧
    forecastNativeValue (some (.vDict [("watt_hours_day", .vDict [("2026-01-15", .vInt 100),
        ("2026-01-14", .vInt 200), ("2026-01-16", .vInt 50)])])) "2026-01-16" =
      some (.vInt 50) :=
  ⟨rfl, by simp,
   ((c3_forecast_days
      [("watt_hours_day", PyVal.vDict [("2026-01-15", .vInt 100), ("2026-01-14", .vInt 200),
        ("2026-01-16", .vInt 50)])]
      [("2026-01-15", PyVal.vInt 100), ("2026-01-14", PyVal.vInt 200),
        ("2026-01-16", PyVal.vInt 50)] rfl (by simp)).1).trans rfl,
   rfl, rfl, rfl⟩

/-! ## Claim C4 -/

theorem hourly_foldl (date : String) (l : List (String × PyVal)) :
    ∀ acc : List (String × PyVal),
    ((l.filter fun p => pyStartsWith p.1 date).map fun p => timePart p.1).Nodup →
    (∀ p ∈ l, pyStartsWith p.1 date = true → timePart p.1 ∉ acc.map Prod.fst) →
    List.foldl (fun a p => if pyStartsWith p.1 date then insertPy a (timePart p.1) p.2 else a)
      acc l =
      acc ++ (l.filter fun p => pyStartsWith p.1 date).map fun p => (timePart p.1, p.2) := by
  induction l with
  | nil => intro acc _ _; simp
  | cons e rest ih =>
    intro acc hnd hdisj
    by_cases hs : pyStartsWith e.1 date = true
    · have hnotin : timePart e.1 ∉ acc.map Prod.fst := hdisj e (List.mem_cons_self _ _) hs
      have hstep : insertPy acc (timePart e.1) e.2 = acc ++ [(timePart e.1, e.2)] :=
        insertPy_of_notMem _ _ _ hnotin
      have hnd' := hnd
      rw [List.filter_cons_of_pos (by simpa using hs)] at hnd'
      simp only [List.map_cons, List.nodup_cons] at hnd'
      have hdisj' : ∀ p ∈ rest, pyStartsWith p.1 date = true →
          timePart p.1 ∉ (acc ++ [(timePart e.1, e.2)]).map Prod.fst := by
        intro p hp hps
        simp only [List.map_append, List.mem_append]
        rintro (hin | hin)
        · exact hdisj p (List.mem_cons_of_mem _ hp) hps hin
        · simp only [List.map_cons, List.map_nil, List.mem_singleton] at hin
          exact hnd'.1 (hin ▸ List.mem_map_of_mem _ (List.mem_filter.mpr ⟨hp, by simpa using hps⟩))
      calc List.foldl _ acc (e :: rest)
          = List.foldl _ (acc ++ [(timePart e.1, e.2)]) rest := by
            simp only [List.foldl_cons, hs, if_pos, hstep]
        _ = acc ++ [(timePart e.1, e.2)] ++
              (rest.filter fun p => pyStartsWith p.1 date).map fun p => (timePart p.1, p.2) :=
            ih _ hnd'.2 hdisj'
        _ = acc ++ ((e :: rest).filter fun p => pyStartsWith p.1 date).map
              fun p => (timePart p.1, p.2) := by
            rw [List.filter_cons_of_pos (by simpa using hs)]
            simp
    · have hs' : pyStartsWith e.1 date = false := by simpa using hs
      have hnd' := hnd
      rw [List.filter_cons_of_neg (by simp [hs'])] at hnd'
      have hdisj' : ∀ p ∈ rest, pyStartsWith p.1 date = true →
          timePart p.1 ∉ acc.map Prod.fst :=
        fun p hp hps => hdisj p (List.mem_cons_of_mem _ hp) hps
      calc List.foldl _ acc (e :: rest)
          = List.foldl _ acc rest := by simp only [List.foldl_cons, hs', if_neg, Bool.false_eq_true,
              not_false_iff, if_false]
        _ = acc ++ (rest.filter fun p => pyStartsWith p.1 date).map
              fun p => (timePart p.1, p.2) := ih _ hnd' hdisj'
        _ = acc ++ ((e :: rest).filter fun p => pyStartsWith p.1 date).map
              fun p => (timePart p.1, p.2) := by
            rw [List.filter_cons_of_neg (by simp [hs'])]

/-- C4: when the filtered timestamps have pairwise distinct time-of-day
parts (always the case for well-formed `"<date> <time>"` keys), the
hourly filter keeps exactly the `watt_hours` entries whose key starts
with the day's date, keyed by the part after the space, in order. -/
theorem c4_hourly_filter (wh : List (String × PyVal)) (date : String)
    (hnd : ((wh.filter fun p => pyStartsWith p.1 date).map fun p => timePart p.1).Nodup) :
    hourlyData wh date =
      (wh.filter fun p => pyStartsWith p.1 date).map fun p => (timePart p.1, p.2) := by
  simpa [hourlyData] using hourly_foldl date wh [] hnd (by simp)

/-- C4 witness: the claim's example — `watt_hours = {"2026-01-14
08:00:00": 97, "2026-01-15 08:00:00": 10}` filtered for `"2026-01-14"`
gives exactly `{"08:00:00": 97}`. -/
theorem c4_hourly_filter_witness :
    (([("2026-01-14 08:00:00", PyVal.vInt 97), ("2026-01-15 08:00:00", PyVal.vInt 10)].filter
        fun p => pyStartsWith p.1 "2026-01-14").map fun p => timePart p.1).Nodup ∧
    hourlyData [("2026-01-14 08:00:00", .vInt 97), ("2026-01-15 08:00:00", .vInt 10)]
      "2026-01-14" = [("08:00:00", .vInt 97)] := by
  have h : (([("2026-01-14 08:00:00", PyVal.vInt 97),
      ("2026-01-15 08:00:00", PyVal.vInt 10)].filter
        fun p => pyStartsWith p.1 "2026-01-14").map fun p => timePart p.1).Nodup := by decide
  exact ⟨h, (c4_hourly_filter _ _ h).trans rfl⟩

/-! ## Claim C5 -/

/-- Exception class of the error surfaced by a fetch, as the caller can
observe it (`type(exc)` of the raised exception), if the fetch failed. -/
def errClass : Except PyExc PyVal → Option String
  | .error e => some e.ty
  | .ok _ => none

/-- C5 counterexample: a timeout failure and a transport failure are
different failure modes, yet both surface to the caller as an exception
of the same class (a bare `Exception`); likewise a transport failure and
a non-2xx status failure.  So the four failure modes are not surfaced as
four distinct, mutually distinguishable error kinds. -/
theorem c5_error_kinds_counterexample :
    kindOf (.timeout "") ≠
      kindOf (.transport "ClientConnectorError" "Cannot connect to host") ∧
    errClass (asyncGet (.timeout "")) =
      errClass (asyncGet (.transport "ClientConnectorError" "Cannot connect to host")) ∧
    kindOf (.transport "ClientConnectorError" "boom") ≠ kindOf (.badStatus 500 "boom") ∧
    errClass (asyncGet (.transport "ClientConnectorError" "boom")) =
      errClass (asyncGet (.badStatus 500 "boom")) :=
  ⟨by simp [kindOf], rfl, by simp [kindOf], rfl⟩

/-- C5 (amended): every fetch failure surfaces to the caller as a raised
exception, but not as four distinct kinds: timeouts and all
`aiohttp.ClientError`s (transport failures and non-2xx statuses alike)
are re-raised as the same generic `Exception` class, chained to the
original cause — with transport and status failures sharing even the
same message shape — while any other exception propagates unchanged. -/
theorem c5_error_surfacing (r : HttpAttempt) (h : kindOf r ≠ .success) :
    ∃ e, asyncGet r = .error e ∧
      (kindOf r ≠ .unexpectedKind → e.ty = "Exception" ∧ e.cause.isSome = true) ∧
      (kindOf r = .timeoutKind → e.msg = "Timeout error") ∧
      ((kindOf r = .transportKind ∨ kindOf r = .statusKind) →
        ∃ c, e.cause = some c ∧ e.msg = "Error communicating with API: " ++ c.2) := by
  cases r with
  | ok b => exact absurd rfl h
  | timeout m => exact ⟨_, rfl, fun _ => ⟨rfl, rfl⟩, fun _ => rfl, by simp [kindOf]⟩
  | transport ty m => exact ⟨_, rfl, fun _ => ⟨rfl, rfl⟩, by simp [kindOf],
      fun _ => ⟨(ty, m), rfl, rfl⟩⟩
  | badStatus code m => exact ⟨_, rfl, fun _ => ⟨rfl, rfl⟩, by simp [kindOf],
      fun _ => ⟨("ClientResponseError", m), rfl, rfl⟩⟩
  | unexpected ty m => exact ⟨_, rfl, by simp [kindOf], by simp [kindOf], by simp [kindOf]⟩

/-- C5 witness: the amended surfacing behaviour at a concrete timeout. -/
theorem c5_error_surfacing_witness :
    kindOf (.timeout "deadline") ≠ FetchKind.success ∧
    ∃ e, asyncGet (.timeout "deadline") = .error e ∧
      (kindOf (HttpAttempt.timeout "deadline") ≠ .unexpectedKind →
        e.ty = "Exception" ∧ e.cause.isSome = true) ∧
      (kindOf (HttpAttempt.timeout "deadline") = .timeoutKind → e.msg = "Timeout error") ∧
      ((kindOf (HttpAttempt.timeout "deadline") = .transportKind ∨
          kindOf (HttpAttempt.timeout "deadline") = .statusKind) →
        ∃ c, e.cause = some c ∧ e.msg = "Error communicating with API: " ++ c.2) :=
  ⟨by simp [kindOf], c5_error_surfacing (.timeout "deadline") (by simp [kindOf])⟩

/-! ## Claim C9 -/

/-- C9: on a refresh tick, a successful fetch replaces the held snapshot
wholesale with the fetched one; any failed fetch leaves the previously
held snapshot unchanged and surfaces the failure purely as an
`UpdateFailed` refresh error (the coordinator's sanctioned error channel,
so nothing else escapes its boundary). -/
theorem c9_poller_refresh (prev : Option PyVal) (r : HttpAttempt) :
    (∀ b, r = .ok b → coordinatorTick prev r = (some b, none)) ∧
    (∀ e, asyncGet r = .error e →
      (coordinatorTick prev r).1 = prev ∧
      ∃ e', (coordinatorTick prev r).2 = some e' ∧ e'.ty = "UpdateFailed") := by
  constructor
  · rintro b rfl
    rfl
  · intro e he
    refine ⟨?_, ⟨"UpdateFailed", "Error communicating with API: " ++ e.msg,
      some (e.ty, e.msg)⟩, ?_, rfl⟩ <;>
      simp [coordinatorTick, updateData, he]

/-- C9 witness: a timed-out tick keeps the held snapshot and surfaces an
`UpdateFailed` error; the next successful tick replaces the snapshot. -/
theorem c9_poller_refresh_witness :
    asyncGet (.timeout "deadline") =
      .error ⟨"Exception", "Timeout error", some ("TimeoutError", "deadline")⟩ ∧
    (coordinatorTick (some (.vInt 1)) (.timeout "deadline")).1 = some (.vInt 1) ∧
    (∃ e', (coordinatorTick (some (.vInt 1)) (.timeout "deadline")).2 = some e' ∧
      e'.ty = "UpdateFailed") ∧
    coordinatorTick (some (.vInt 1)) (.ok (.vInt 2)) = (some (.vInt 2), none) := by
  have h := (c9_poller_refresh (some (.vInt 1)) (.timeout "deadline")).2 _ rfl
  exact ⟨rfl, h.1, h.2, (c9_poller_refresh (some (.vInt 1)) (.ok (.vInt 2))).1 _ rfl⟩
